import Mathlib

/-!
Shallow embedding of the Mario platformer (src/a3_files/app.py).

The gameplay orchestration layer of app.py is translated directly: the
symbol tables, the factory functions, the collision handlers, the camera
scroll clamp, the input handlers, and the step/on_death/reset_world
lifecycle. The external collaborators that app.py imports (game.world,
game.block, game.mob, game.item, player, level) are not part of the
source tree; their operations are modelled from the specification and
each such definition carries a doc comment saying so.
-/

namespace Mario

/-- Constant BLOCK_SIZE = 2 ** 4 from app.py. -/
def BLOCK_SIZE : Int := 2 ^ 4

/-- The BLOCKS symbol table of app.py: level symbol to block identifier. -/
def BLOCKS : Char → Option String := fun c =>
  if c = '#' then some "brick"
  else if c = '%' then some "brick_base"
  else if c = '?' then some "mystery_empty"
  else if c = '$' then some "mystery_coin"
  else if c = '^' then some "cube"
  else none

/-- The ITEMS symbol table of app.py: level symbol to item identifier. -/
def ITEMS : Char → Option String := fun c =>
  if c = 'C' then some "coin" else none

/-- The MOBS symbol table of app.py: level symbol to mob identifier. -/
def MOBS : Char → Option String := fun c =>
  if c = '&' then some "cloud" else none

/-- Modelled from the spec: game/block.py is not under src. A block is
either a plain block carrying the block identifier it was constructed
with, or a mystery block carrying an optional configured drop (an item
type plus a quantity range); `MysteryBlock()` with no arguments is the
empty mystery block with no drop. -/
inductive GameBlock : Type
  | plain (block_id : String)
  | mystery (drop : Option (String × Nat × Nat))
deriving DecidableEq, Repr

/-- Modelled from the spec: game/block.py is not under src. A plain
block's type identifier is the block identifier it was constructed with;
the mystery variant has its own identifier, distinct from every plain
destructible type such as "brick". -/
def GameBlock.get_id : GameBlock → String
  | .plain block_id => block_id
  | .mystery _ => "mystery"

/-- Modelled from the spec: game/mob.py is not under src. A mob carries a
type identifier (e.g. "cloud", "fireball") returned by get_id. -/
structure GameMob : Type where
  mob_id : String
deriving DecidableEq, Repr

/-- Type identifier accessor of a mob. -/
def GameMob.get_id (m : GameMob) : String := m.mob_id

/-- Modelled from the spec: game/mob.py is not under src. `CloudMob()`
builds the ambient cloud mob. -/
def CloudMob : GameMob := ⟨"cloud"⟩

/-- Modelled from the spec: game/mob.py is not under src. `Fireball()`
builds the destructive projectile mob. -/
def Fireball : GameMob := ⟨"fireball"⟩

/-- Modelled from the spec: game/item.py is not under src. A dropped item
carries a type identifier (e.g. "coin"). -/
structure GameItem : Type where
  item_id : String
deriving DecidableEq, Repr

/-- Modelled from the spec: game/item.py is not under src. `Coin()`
builds the coin item. -/
def Coin : GameItem := ⟨"coin"⟩

/-- Modelled from the spec: player.py is not under src. The player holds
current health, maximum health, a velocity, and a coin tally touched only
by item pickup effects. Health is an integer in [0, max_health]. -/
structure Player : Type where
  health : Int
  max_health : Int
  velocity : Int × Int
  coins : Nat
deriving DecidableEq, Repr

/-- Modelled from the spec: player.py is not under src. Velocity is
replaced wholesale by set_velocity. -/
def Player.set_velocity (p : Player) (v : Int × Int) : Player :=
  { p with velocity := v }

/-- Maximum health accessor. -/
def Player.get_max_health (p : Player) : Int := p.max_health

/-- Health accessor. -/
def Player.get_health (p : Player) : Int := p.health

/-- Modelled from the spec: player.py is not under src. change_health
adds the given amount to the player's health, clamped into the invariant
range [0, max_health]. -/
def Player.change_health (p : Player) (amount : Int) : Player :=
  { p with health := max 0 (min p.max_health (p.health + amount)) }

/-- Modelled from the spec: game/item.py is not under src. An item's
pickup effect applied to the player: the coin item increments the
player's coin tally; any other dropped item leaves the player unchanged
beyond being collected. -/
def GameItem.collect (it : GameItem) (p : Player) : Player :=
  if it.item_id = "coin" then { p with coins := p.coins + 1 } else p

/-- Modelled from the spec: game/world.py is not under src. The World
Facade holds the placed entities per category tag, each with the world
position it was inserted at; generic unknown entities also record a size.
Python object identity is modelled by value equality, which is faithful
whenever the placed entities are pairwise distinct and makes removal
idempotent as the spec requires. -/
structure World : Type where
  blocks : List (GameBlock × Int × Int)
  items : List (GameItem × Int × Int)
  mobs : List (GameMob × Int × Int)
  things : List ((Int × Int) × (Int × Int))
deriving DecidableEq, Repr

/-- Modelled from the spec: insertion of a block at a world position. -/
def World.add_block (w : World) (b : GameBlock) (x y : Int) : World :=
  { w with blocks := w.blocks ++ [(b, x, y)] }

/-- Modelled from the spec: insertion of an item at a world position. -/
def World.add_item (w : World) (it : GameItem) (x y : Int) : World :=
  { w with items := w.items ++ [(it, x, y)] }

/-- Modelled from the spec: insertion of a mob at a world position. -/
def World.add_mob (w : World) (m : GameMob) (x y : Int) : World :=
  { w with mobs := w.mobs ++ [(m, x, y)] }

/-- Modelled from the spec: insertion of a generic entity with an
explicit size at a world position. -/
def World.add_thing (w : World) (x y : Int) (size : Int × Int) : World :=
  { w with things := w.things ++ [((x, y), size)] }

/-- Modelled from the spec: removal of a block; a no-op when the block is
absent (idempotent removal). -/
def World.remove_block (w : World) (b : GameBlock) : World :=
  { w with blocks := w.blocks.filter (fun e => e.1 ≠ b) }

/-- Modelled from the spec: removal of an item; a no-op when the item is
absent (idempotent removal). -/
def World.remove_item (w : World) (it : GameItem) : World :=
  { w with items := w.items.filter (fun e => e.1 ≠ it) }

/-- Modelled from the spec: removal of a mob; a no-op when the mob is
absent (idempotent removal). -/
def World.remove_mob (w : World) (m : GameMob) : World :=
  { w with mobs := w.mobs.filter (fun e => e.1 ≠ m) }

/-- Whether a block is present in the world. -/
def World.hasBlock (w : World) (b : GameBlock) : Bool :=
  w.blocks.any (fun e => e.1 = b)

/-- Whether an item is present in the world. -/
def World.hasItem (w : World) (it : GameItem) : Bool :=
  w.items.any (fun e => e.1 = it)

/-- Whether a mob is present in the world. -/
def World.hasMob (w : World) (m : GameMob) : Bool :=
  w.mobs.any (fun e => e.1 = m)

/-- create_block from app.py: second-level mapping from the symbol's
block identifier to a concrete block object, inserted at the placement
coordinates scaled by BLOCK_SIZE. A symbol absent from BLOCKS raises a
KeyError in Python, modelled as none. -/
def create_block (w : World) (sym : Char) (x y : Int) : Option World :=
  match BLOCKS sym with
  | none => none
  | some block_id =>
    let block : GameBlock :=
      if block_id = "mystery_empty" then GameBlock.mystery none
      else if block_id = "mystery_coin" then GameBlock.mystery (some ("coin", 3, 6))
      else GameBlock.plain block_id
    some (w.add_block block (x * BLOCK_SIZE) (y * BLOCK_SIZE))

/-- create_item from app.py: second-level mapping from the symbol's item
identifier to a concrete item, inserted at the scaled coordinates. -/
def create_item (w : World) (sym : Char) (x y : Int) : Option World :=
  match ITEMS sym with
  | none => none
  | some item_id =>
    let item : GameItem :=
      if item_id = "coin" then Coin else ⟨item_id⟩
    some (w.add_item item (x * BLOCK_SIZE) (y * BLOCK_SIZE))

/-- create_mob from app.py: second-level mapping from the symbol's mob
identifier to a concrete mob, inserted at the scaled coordinates. -/
def create_mob (w : World) (sym : Char) (x y : Int) : Option World :=
  match MOBS sym with
  | none => none
  | some mob_id =>
    let mob : GameMob :=
      if mob_id = "cloud" then CloudMob
      else if mob_id = "fireball" then Fireball
      else ⟨mob_id⟩
    some (w.add_mob mob (x * BLOCK_SIZE) (y * BLOCK_SIZE))

/-- create_unknown from app.py: adds a generic Entity of size
(BLOCK_SIZE, BLOCK_SIZE) at the scaled coordinates. -/
def create_unknown (w : World) (x y : Int) : World :=
  w.add_thing (x * BLOCK_SIZE) (y * BLOCK_SIZE) (BLOCK_SIZE, BLOCK_SIZE)

/-- Modelled from the spec: level.py (WorldBuilder) is not under src.
The placement entry point looks up the factory registered for the symbol
(app.py registers create_block for BLOCKS keys, create_item for ITEMS
keys, create_mob for MOBS keys) and falls back to the generic
create_unknown factory when no registration matches. -/
def on_placement (w : World) (sym : Char) (x y : Int) : Option World :=
  if (BLOCKS sym).isSome then create_block w sym x y
  else if (ITEMS sym).isSome then create_item w sym x y
  else if (MOBS sym).isSome then create_mob w sym x y
  else some (create_unknown w x y)

/-- The observable state of a MarioApp: the world, the long-lived player,
the death flag `_death_action`, the camera offset held by the view, and a
tally of how many times the death prompt has been surfaced (the
observable effect of on_death's popup). -/
structure MarioApp : Type where
  world : World
  player : Player
  death_action : Bool
  camera_offset : ℚ × ℚ
  death_prompts : Nat
deriving DecidableEq, Repr

/-- MarioApp.scroll from app.py as a function of the player's x
position, the window width and the world pixel width: the three-branch
clamp. Python leaves the previous offset untouched when no branch fires,
modelled by none (the branches are in fact exhaustive). -/
def MarioApp.scroll (player_x viewport_width world_width : ℚ) : Option (ℚ × ℚ) :=
  let half_screen := viewport_width / 2
  let world_size := world_width - half_screen
  if player_x ≤ half_screen then some (0, 0)
  else if half_screen ≤ player_x ∧ player_x ≤ world_size then
    some (half_screen - player_x, 0)
  else if world_size ≤ player_x then some (half_screen - world_size, 0)
  else none

/-- MarioApp.on_death from app.py: sets the death flag and surfaces the
death popup (modelled by bumping the prompt tally; the popup's buttons
are separate user actions). -/
def MarioApp.on_death (s : MarioApp) : MarioApp :=
  { s with death_action := true, death_prompts := s.death_prompts + 1 }

/-- MarioApp.step from app.py, lifecycle portion: after the world
physics step, scroll and redraw (delegated to the external physics and
view services, which do not touch health, the death flag or the prompt
tally), the tick checks the player's health and invokes on_death exactly
when health is 0 and the death flag is not yet set. -/
def MarioApp.step (s : MarioApp) : MarioApp :=
  if s.player.get_health = 0 then
    if ¬ s.death_action then s.on_death else s
  else s

/-- MarioApp.reset_world from app.py: installs the freshly loaded world
(load_world is the external level loader, so the new world is a
parameter), keeps the long-lived player, clears the death flag and
restores health via change_health(max_health). -/
def MarioApp.reset_world (s : MarioApp) (new_world : World) : MarioApp :=
  { s with
    world := new_world,
    death_action := false,
    player := s.player.change_health s.player.get_max_health }

/-- MarioApp._move from app.py: replaces the player's velocity. The key
bindings invoke it with (-50, 0), (-500, 0), (50, 0) and (500, 0). -/
def MarioApp.move (s : MarioApp) (dx dy : Int) : MarioApp :=
  { s with player := s.player.set_velocity (dx, dy) }

/-- MarioApp._jump from app.py: replaces the player's velocity with
(0, -150). -/
def MarioApp.jump (s : MarioApp) : MarioApp :=
  { s with player := s.player.set_velocity (0, -150) }

/-- MarioApp._duck from app.py: a placeholder that only returns True. -/
def MarioApp.duck (s : MarioApp) : MarioApp × Bool :=
  (s, true)

/-- MarioApp._handle_mob_collide_block from app.py: a fireball mob
removes a "brick" block and is itself consumed; the handler always
reports the contact as solid. -/
def MarioApp.handle_mob_collide_block (w : World) (mob : GameMob)
    (block : GameBlock) : World × Bool :=
  if mob.get_id = "fireball" then
    let w1 := if block.get_id = "brick" then w.remove_block block else w
    (w1.remove_mob mob, true)
  else (w, true)

/-- MarioApp._handle_mob_collide_mob from app.py: if either participant
is a fireball both are removed; the contact is always ignored. -/
def MarioApp.handle_mob_collide_mob (w : World) (mob1 mob2 : GameMob) :
    World × Bool :=
  if mob1.get_id = "fireball" ∨ mob2.get_id = "fireball" then
    ((w.remove_mob mob1).remove_mob mob2, false)
  else (w, false)

/-- MarioApp._handle_mob_collide_item from app.py: no effect, contact
ignored. -/
def MarioApp.handle_mob_collide_item (w : World) (_mob : GameMob)
    (_it : GameItem) : World × Bool :=
  (w, false)

/-- MarioApp._handle_player_collide_item from app.py: the item's pickup
effect is applied to the app's player, the item is removed from the
world, and the contact is ignored. -/
def MarioApp.handle_player_collide_item (w : World) (p : Player)
    (dropped_item : GameItem) : World × Player × Bool :=
  (w.remove_item dropped_item, dropped_item.collect p, false)

/-- Membership in a filtered entity list: after filtering out the
entities equal to x, an entity m is found exactly when it differs from x
and was found before. -/
theorem any_filter_ne {α β : Type} [DecidableEq α] (l : List (α × β)) (x m : α) :
    ((l.filter fun e => e.1 ≠ x).any fun e => e.1 = m)
      = (decide (m ≠ x) && l.any fun e => e.1 = m) := by
  rw [Bool.eq_iff_iff]
  simp only [List.any_eq_true, List.mem_filter, decide_eq_true_eq,
    Bool.and_eq_true, ne_eq]
  constructor
  · rintro ⟨e, ⟨he, hex⟩, hem⟩
    refine ⟨by simpa [hem] using hex, e, he, hem⟩
  · rintro ⟨hmx, e, he, hem⟩
    exact ⟨e, ⟨he, by simpa [hem] using hmx⟩, hem⟩

/-- Presence of a mob after a mob removal. -/
theorem World.hasMob_remove_mob (w : World) (x m : GameMob) :
    (w.remove_mob x).hasMob m = (decide (m ≠ x) && w.hasMob m) :=
  any_filter_ne w.mobs x m

/-- Presence of an item after an item removal. -/
theorem World.hasItem_remove_item (w : World) (x it : GameItem) :
    (w.remove_item x).hasItem it = (decide (it ≠ x) && w.hasItem it) :=
  any_filter_ne w.items x it

/-- Presence of a block after a block removal. -/
theorem World.hasBlock_remove_block (w : World) (x b : GameBlock) :
    (w.remove_block x).hasBlock b = (decide (b ≠ x) && w.hasBlock b) :=
  any_filter_ne w.blocks x b

/-- C2: for every mob-block begin contact, if the mob's type identifier
is "fireball" then the mob is removed from the world, the block is
additionally removed when its type is the destructible "brick" and its
block list survives untouched otherwise; a non-fireball mob changes
nothing; and the handler returns true in all cases. -/
theorem mob_collide_block_spec (w : World) (mob : GameMob) (block : GameBlock) :
    (MarioApp.handle_mob_collide_block w mob block).2 = true ∧
    (mob.get_id = "fireball" →
      (MarioApp.handle_mob_collide_block w mob block).1.hasMob mob = false) ∧
    (mob.get_id = "fireball" → block.get_id = "brick" →
      (MarioApp.handle_mob_collide_block w mob block).1.hasBlock block = false) ∧
    (mob.get_id = "fireball" → block.get_id ≠ "brick" →
      (MarioApp.handle_mob_collide_block w mob block).1.blocks = w.blocks) ∧
    (mob.get_id ≠ "fireball" →
      (MarioApp.handle_mob_collide_block w mob block).1 = w) := by
  by_cases hm : mob.get_id = "fireball" <;>
    by_cases hb : block.get_id = "brick" <;>
      simp [MarioApp.handle_mob_collide_block, hm, hb, World.hasMob_remove_mob,
        World.hasMob, World.hasBlock, World.remove_mob, World.remove_block,
        any_filter_ne]

/-- Witness for C2 at a concrete world holding a brick and a fireball. -/
theorem mob_collide_block_witness :
    (MarioApp.handle_mob_collide_block
      ⟨[(GameBlock.plain "brick", 0, 0)], [], [(⟨"fireball"⟩, 16, 16)], []⟩
      ⟨"fireball"⟩ (GameBlock.plain "brick")).2 = true ∧
    (MarioApp.handle_mob_collide_block
      ⟨[(GameBlock.plain "brick", 0, 0)], [], [(⟨"fireball"⟩, 16, 16)], []⟩
      ⟨"fireball"⟩ (GameBlock.plain "brick")).1.hasMob ⟨"fireball"⟩ = false ∧
    (MarioApp.handle_mob_collide_block
      ⟨[(GameBlock.plain "brick", 0, 0)], [], [(⟨"fireball"⟩, 16, 16)], []⟩
      ⟨"fireball"⟩ (GameBlock.plain "brick")).1.hasBlock
        (GameBlock.plain "brick") = false :=
  ⟨(mob_collide_block_spec _ _ _).1,
   (mob_collide_block_spec _ _ _).2.1 rfl,
   (mob_collide_block_spec _ _ _).2.2.1 rfl rfl⟩

/-- C3: for every mob-mob begin contact, both mobs are removed when at
least one participant has the "fireball" type identifier, nothing
changes otherwise, and the handler returns false in all cases. -/
theorem mob_collide_mob_spec (w : World) (m1 m2 : GameMob) :
    (MarioApp.handle_mob_collide_mob w m1 m2).2 = false ∧
    ((m1.get_id = "fireball" ∨ m2.get_id = "fireball") →
      (MarioApp.handle_mob_collide_mob w m1 m2).1.hasMob m1 = false ∧
      (MarioApp.handle_mob_collide_mob w m1 m2).1.hasMob m2 = false) ∧
    (m1.get_id ≠ "fireball" → m2.get_id ≠ "fireball" →
      (MarioApp.handle_mob_collide_mob w m1 m2).1 = w) := by
  by_cases h : m1.get_id = "fireball" ∨ m2.get_id = "fireball"
  · refine ⟨by simp [MarioApp.handle_mob_collide_mob, h], fun _ => ⟨?_, ?_⟩, fun h1 h2 => absurd h (by simp [h1, h2])⟩ <;>
      simp [MarioApp.handle_mob_collide_mob, h, World.hasMob_remove_mob]
  · push_neg at h
    simp [MarioApp.handle_mob_collide_mob, h.1, h.2]

/-- Witness for C3 at a concrete world holding a fireball and a cloud. -/
theorem mob_collide_mob_witness :
    (MarioApp.handle_mob_collide_mob
      ⟨[], [], [(⟨"fireball"⟩, 0, 0), (⟨"cloud"⟩, 16, 0)], []⟩
      ⟨"fireball"⟩ ⟨"cloud"⟩).2 = false ∧
    (MarioApp.handle_mob_collide_mob
      ⟨[], [], [(⟨"fireball"⟩, 0, 0), (⟨"cloud"⟩, 16, 0)], []⟩
      ⟨"fireball"⟩ ⟨"cloud"⟩).1.hasMob ⟨"fireball"⟩ = false ∧
    (MarioApp.handle_mob_collide_mob
      ⟨[], [], [(⟨"fireball"⟩, 0, 0), (⟨"cloud"⟩, 16, 0)], []⟩
      ⟨"fireball"⟩ ⟨"cloud"⟩).1.hasMob ⟨"cloud"⟩ = false :=
  ⟨(mob_collide_mob_spec _ _ _).1,
   ((mob_collide_mob_spec _ _ _).2.1 (Or.inl rfl)).1,
   ((mob_collide_mob_spec _ _ _).2.1 (Or.inl rfl)).2⟩

/-- C4: for every player-item begin contact, the item's pickup effect is
applied to the player, the item is removed from the world, the handler
returns false, and no other state changes: blocks, mobs, generic
entities and every other item are untouched. -/
theorem player_collide_item_spec (w : World) (p : Player) (it : GameItem) :
    (MarioApp.handle_player_collide_item w p it).2.2 = false ∧
    (MarioApp.handle_player_collide_item w p it).2.1 = it.collect p ∧
    (MarioApp.handle_player_collide_item w p it).1.hasItem it = false ∧
    (MarioApp.handle_player_collide_item w p it).1.blocks = w.blocks ∧
    (MarioApp.handle_player_collide_item w p it).1.mobs = w.mobs ∧
    (MarioApp.handle_player_collide_item w p it).1.things = w.things ∧
    (∀ other : GameItem, other ≠ it →
      (MarioApp.handle_player_collide_item w p it).1.hasItem other
        = w.hasItem other) := by
  refine ⟨rfl, rfl, ?_, rfl, rfl, rfl, fun other hne => ?_⟩
  · simp [MarioApp.handle_player_collide_item, World.hasItem_remove_item]
  · simp [MarioApp.handle_player_collide_item, World.hasItem_remove_item, hne]

/-- Witness for C4 at a concrete world holding a coin item. -/
theorem player_collide_item_witness :
    (MarioApp.handle_player_collide_item ⟨[], [(Coin, 48, 16)], [], []⟩
      ⟨5, 5, (0, 0), 0⟩ Coin).2.2 = false ∧
    (MarioApp.handle_player_collide_item ⟨[], [(Coin, 48, 16)], [], []⟩
      ⟨5, 5, (0, 0), 0⟩ Coin).2.1 = Coin.collect ⟨5, 5, (0, 0), 0⟩ ∧
    (MarioApp.handle_player_collide_item ⟨[], [(Coin, 48, 16)], [], []⟩
      ⟨5, 5, (0, 0), 0⟩ Coin).1.hasItem Coin = false ∧
    (MarioApp.handle_player_collide_item ⟨[], [(Coin, 48, 16)], [], []⟩
      ⟨5, 5, (0, 0), 0⟩ Coin).1.hasItem ⟨"star"⟩
      = World.hasItem ⟨[], [(Coin, 48, 16)], [], []⟩ ⟨"star"⟩ :=
  ⟨(player_collide_item_spec _ _ _).1,
   (player_collide_item_spec _ _ _).2.1,
   (player_collide_item_spec _ _ _).2.2.1,
   (player_collide_item_spec _ _ _).2.2.2.2.2.2 ⟨"star"⟩ (by decide)⟩

/-- C5: the block factory's second-level symbol mapping builds a mystery
block with no drop for the symbol for mystery_empty, a mystery block
dropping "coin" with quantity range 3 to 6 for the symbol for
mystery_coin, and a plain block of the mapped type for every other
registered block symbol; the built object is inserted into the world at
the grid coordinates scaled by BLOCK_SIZE. -/
theorem create_block_spec (w : World) (x y : Int) :
    create_block w '?' x y =
      some (w.add_block (GameBlock.mystery none)
        (x * BLOCK_SIZE) (y * BLOCK_SIZE)) ∧
    create_block w '$' x y =
      some (w.add_block (GameBlock.mystery (some ("coin", 3, 6)))
        (x * BLOCK_SIZE) (y * BLOCK_SIZE)) ∧
    create_block w '#' x y =
      some (w.add_block (GameBlock.plain "brick")
        (x * BLOCK_SIZE) (y * BLOCK_SIZE)) ∧
    create_block w '%' x y =
      some (w.add_block (GameBlock.plain "brick_base")
        (x * BLOCK_SIZE) (y * BLOCK_SIZE)) ∧
    create_block w '^' x y =
      some (w.add_block (GameBlock.plain "cube")
        (x * BLOCK_SIZE) (y * BLOCK_SIZE)) :=
  ⟨rfl, rfl, rfl, rfl, rfl⟩

/-- C6: for every symbol registered with no factory, the placement entry
point builds exactly one generic inert entity of size BLOCK_SIZE square
at the grid position scaled by BLOCK_SIZE, and returns some (it never
raises), so an unknown symbol never fails a level load. -/
theorem on_placement_unknown_spec (w : World) (sym : Char) (x y : Int)
    (hb : BLOCKS sym = none) (hi : ITEMS sym = none) (hm : MOBS sym = none) :
    on_placement w sym x y =
      some { w with things := w.things ++
        [((x * BLOCK_SIZE, y * BLOCK_SIZE), (BLOCK_SIZE, BLOCK_SIZE))] } := by
  simp [on_placement, hb, hi, hm, create_unknown, World.add_thing]

/-- Witness for C6 at the unregistered symbol z. -/
theorem on_placement_unknown_witness :
    on_placement ⟨[], [], [], []⟩ 'z' 2 3 =
      some ⟨[], [], [], [((32, 48), (16, 16))]⟩ := by
  have h := on_placement_unknown_spec ⟨[], [], [], []⟩ 'z' 2 3 rfl rfl rfl
  simpa using h

/-- Helper: one tick rewritten as a single conditional on the death
transition guard. -/
theorem step_eq (s : MarioApp) :
    MarioApp.step s =
      if s.player.get_health = 0 ∧ s.death_action = false
        then s.on_death else s := by
  by_cases h0 : s.player.get_health = 0 <;>
    by_cases hf : s.death_action = false <;>
      simp [MarioApp.step, h0, hf]

/-- Helper: a tick never fires the death handling once the flag is set. -/
theorem step_of_flagged (s : MarioApp) (h : s.death_action = true) :
    MarioApp.step s = s := by
  rw [step_eq]
  simp [h]

/-- Helper: iterating ticks on a flagged state changes nothing. -/
theorem iterate_step_of_flagged (s : MarioApp) (h : s.death_action = true) :
    ∀ n : Nat, MarioApp.step^[n] s = s := by
  intro n
  induction n with
  | zero => rfl
  | succ k ih => rw [Function.iterate_succ_apply, step_of_flagged s h, ih]

/-- C7: the death handling runs on a tick exactly when health is 0 and
the death flag is unset; a tick fires nothing otherwise and running it
sets the flag, so across any positive number of ticks from an unflagged
dead state the death prompt is surfaced exactly once, and it can fire
again only once the flag is cleared. -/
theorem step_death_spec (s : MarioApp) :
    ((MarioApp.step s).death_prompts = s.death_prompts + 1 ↔
      (s.player.get_health = 0 ∧ s.death_action = false)) ∧
    (¬(s.player.get_health = 0 ∧ s.death_action = false) →
      MarioApp.step s = s) ∧
    (s.player.get_health = 0 → s.death_action = false →
      (MarioApp.step s).death_action = true) ∧
    (∀ n : Nat, 1 ≤ n → s.player.get_health = 0 → s.death_action = false →
      (MarioApp.step^[n] s).death_prompts = s.death_prompts + 1 ∧
      (MarioApp.step^[n] s).death_action = true) := by
  refine ⟨?_, ?_, ?_, ?_⟩
  · rw [step_eq]
    by_cases h : s.player.get_health = 0 ∧ s.death_action = false <;>
      simp [h, MarioApp.on_death]
  · intro h
    rw [step_eq, if_neg h]
  · intro h0 hf
    rw [step_eq, if_pos ⟨h0, hf⟩]
    rfl
  · rintro (_ | k) hn h0 hf
    · omega
    · rw [Function.iterate_succ_apply, step_eq, if_pos ⟨h0, hf⟩,
        iterate_step_of_flagged s.on_death rfl]
      exact ⟨rfl, rfl⟩

/-- Witness for C7: three ticks on a dead unflagged state surface the
prompt exactly once. -/
theorem step_death_witness :
    (MarioApp.step^[3]
      ⟨⟨[], [], [], []⟩, ⟨0, 5, (0, 0), 0⟩, false, (0, 0), 0⟩).death_prompts
      = 1 ∧
    (MarioApp.step^[3]
      ⟨⟨[], [], [], []⟩, ⟨0, 5, (0, 0), 0⟩, false, (0, 0), 0⟩).death_action
      = true :=
  (step_death_spec ⟨⟨[], [], [], []⟩, ⟨0, 5, (0, 0), 0⟩, false, (0, 0), 0⟩
    ).2.2.2 3 (by decide) rfl rfl

/-- C8: after any level (re)load, the player's health equals max_health
and the death flag is cleared, for every starting health within the
invariant range and every starting flag value; the freshly loaded world
is installed. -/
theorem reset_world_spec (s : MarioApp) (w : World)
    (h0 : 0 ≤ s.player.health) (hm : 0 ≤ s.player.max_health) :
    (s.reset_world w).player.health = s.player.max_health ∧
    (s.reset_world w).death_action = false ∧
    (s.reset_world w).world = w := by
  refine ⟨?_, rfl, rfl⟩
  simp only [MarioApp.reset_world, Player.change_health, Player.get_max_health]
  omega

/-- Witness for C8: reloading after dying at health 0 with the flag set
restores health to max and clears the flag. -/
theorem reset_world_witness :
    (MarioApp.reset_world
      ⟨⟨[], [], [], []⟩, ⟨0, 5, (0, 0), 0⟩, true, (0, 0), 1⟩
      ⟨[], [], [], []⟩).player.health = 5 ∧
    (MarioApp.reset_world
      ⟨⟨[], [], [], []⟩, ⟨0, 5, (0, 0), 0⟩, true, (0, 0), 1⟩
      ⟨[], [], [], []⟩).death_action = false :=
  ⟨(reset_world_spec _ _ (by decide) (by decide)).1,
   (reset_world_spec ⟨⟨[], [], [], []⟩, ⟨0, 5, (0, 0), 0⟩, true, (0, 0), 1⟩
     ⟨[], [], [], []⟩ (by decide) (by decide)).2.1⟩

/-- Everything of the app state except the player's velocity agrees
between two states. -/
def only_velocity_changed (s t : MarioApp) : Prop :=
  t.world = s.world ∧
  t.player.health = s.player.health ∧
  t.player.max_health = s.player.max_health ∧
  t.player.coins = s.player.coins ∧
  t.death_action = s.death_action ∧
  t.camera_offset = s.camera_offset ∧
  t.death_prompts = s.death_prompts

/-- C9: every keyboard input handler (jump, the move handler invoked at
every speed tier, duck) mutates only the player's velocity: the world,
health, max health, coins, death flag, camera offset and prompt tally
are unchanged, and the duck handler changes nothing at all. -/
theorem input_handlers_spec (s : MarioApp) (dx dy : Int) :
    only_velocity_changed s s.jump ∧
    only_velocity_changed s (s.move dx dy) ∧
    s.duck.1 = s ∧ s.duck.2 = true :=
  ⟨⟨rfl, rfl, rfl, rfl, rfl, rfl, rfl⟩,
   ⟨rfl, rfl, rfl, rfl, rfl, rfl, rfl⟩, rfl, rfl⟩

/-- C10: the jump handler sets the velocity to exactly (0, -150) for
every player state, with no on-ground precondition, and each move
binding replaces the whole velocity with (dx, 0). -/
theorem jump_replaces_velocity_spec (s : MarioApp) (dx : Int) :
    s.jump.player.velocity = (0, -150) ∧
    (s.move dx 0).player.velocity = (dx, 0) ∧
    (s.move (-50) 0).player.velocity = (-50, 0) ∧
    (s.move (-500) 0).player.velocity = (-500, 0) ∧
    (s.move 50 0).player.velocity = (50, 0) ∧
    (s.move 500 0).player.velocity = (500, 0) :=
  ⟨rfl, rfl, rfl, rfl, rfl, rfl⟩

/-- C1 counterexample: with viewport_width 800 and world_width 3200 the
code clamps the right edge at 400 - 2800 = -2400, not -2800 as the claim
states; and when the viewport is wider than the world (800 versus 400)
the claimed right-edge-clamp case contradicts the code, which takes the
left-edge branch. -/
theorem scroll_claim_counterexample :
    MarioApp.scroll 3100 800 3200 = some (-2400, 0) ∧
    MarioApp.scroll 3100 800 3200 ≠ some (-2800, 0) ∧
    (100 : ℚ) ≥ 400 - 800 / 2 ∧
    MarioApp.scroll 100 800 400 = some (0, 0) ∧
    MarioApp.scroll 100 800 400 ≠ some (800 / 2 - (400 - 800 / 2), 0) := by
  refine ⟨?_, ?_, ?_, ?_, ?_⟩ <;> norm_num [MarioApp.scroll, Prod.ext_iff]

/-- C1 amended: the camera offset is the piecewise clamp with the x
component 0 for player_x at most half the viewport, half the viewport
minus player_x in the middle band, and the right edge clamp at
viewport_width / 2 - (world_width - viewport_width / 2) for player_x
beyond the right band whenever the viewport is no wider than the world;
the y component is always 0; and at viewport 800 and world 3200 the
offsets at 100, 1000 and 3100 are 0, -600 and -2400. -/
theorem scroll_spec (px vw ww : ℚ) :
    (px ≤ vw / 2 → MarioApp.scroll px vw ww = some (0, 0)) ∧
    (vw / 2 ≤ px → px ≤ ww - vw / 2 →
      MarioApp.scroll px vw ww = some (vw / 2 - px, 0)) ∧
    (vw ≤ ww → ww - vw / 2 ≤ px →
      MarioApp.scroll px vw ww = some (vw / 2 - (ww - vw / 2), 0)) ∧
    (∀ off : ℚ × ℚ, MarioApp.scroll px vw ww = some off → off.2 = 0) ∧
    MarioApp.scroll 100 800 3200 = some (0, 0) ∧
    MarioApp.scroll 1000 800 3200 = some (-600, 0) ∧
    MarioApp.scroll 3100 800 3200 = some (-2400, 0) := by
  refine ⟨?_, ?_, ?_, ?_, by norm_num [MarioApp.scroll],
    by norm_num [MarioApp.scroll], by norm_num [MarioApp.scroll]⟩
  · intro h
    simp only [MarioApp.scroll]
    rw [if_pos h]
  · intro h1 h2
    simp only [MarioApp.scroll]
    split_ifs with ha hb hc
    · simp only [Option.some.injEq, Prod.mk.injEq]
      exact ⟨by linarith, trivial⟩
    · rfl
    · exact absurd ⟨h1, h2⟩ hb
    · exact absurd ⟨h1, h2⟩ hb
  · intro hvw h
    simp only [MarioApp.scroll]
    split_ifs with ha hb
    · simp only [Option.some.injEq, Prod.mk.injEq]
      exact ⟨by linarith, trivial⟩
    · simp only [Option.some.injEq, Prod.mk.injEq]
      exact ⟨by linarith [hb.2], trivial⟩
    · rfl
  · intro off hoff
    simp only [MarioApp.scroll] at hoff
    split_ifs at hoff
    · rw [← Option.some.inj hoff]
    · rw [← Option.some.inj hoff]
    · rw [← Option.some.inj hoff]

/-- Witness for the amended C1 at concrete positions in all three
bands. -/
theorem scroll_spec_witness :
    MarioApp.scroll 100 800 3200 = some (0, 0) ∧
    MarioApp.scroll 1000 800 3200 = some (-600, 0) ∧
    MarioApp.scroll 3100 800 3200 = some (-2400, 0) := by
  refine ⟨(scroll_spec 100 800 3200).1 (by norm_num), ?_, ?_⟩
  · have h := (scroll_spec 1000 800 3200).2.1 (by norm_num) (by norm_num)
    norm_num at h
    exact h
  · have h := (scroll_spec 3100 800 3200).2.2.1 (by norm_num) (by norm_num)
    norm_num at h
    exact h

end Mario
